import Mathlib

set_option maxRecDepth 8000

/-!
Verification of the nlq-prototype data-analysis core.

This file gives a shallow embedding, in Lean 4, of the pure computational
core of the repository:

* `utils/data_utils.py` — `analyze_data_structure` (the data profiler) and
  `suggest_chart_config`;
* `config/schema_config.py` — `DynamicSchemaManager` (schema cache,
  fallback prompt, detailed prompt builder, size formatting);
* `utils/bigquery_utils.py` — `analyze_table_relationship` and
  `format_table_size`;
* `core/analyzer.py` — `_clean_sql_query`, `_validate_html_quality` and the
  retry loop of `generate_html_report`.

Modelling conventions:

* Python numbers (int/float) are modelled as exact rationals `ℚ`; `round`
  is modelled with round-half-to-even, matching CPython on the decimal
  values used here.
* Python dicts are modelled as association lists with unique keys in
  insertion order; dict assignment replaces in place, dict iteration order
  is insertion order.  Where CPython iterates a `set` (unspecified order)
  the embedding iterates in first-occurrence order; none of the verified
  properties depend on that order.
* Python string operations (`split`, `strip`, `upper`, `in`, `join`,
  `startswith`, `endswith`) are re-implemented structurally over `List Char`
  so that concrete instances evaluate inside Lean.
* LLM/network calls are modelled by passing the sequence of raw response
  texts as an explicit argument.
-/

/-! ### Python-like string primitives -/

/-- Whitespace characters stripped by Python `str.strip`. -/
def pyIsSpace (c : Char) : Bool :=
  c = ' ' || c = '\t' || c = '\n' || c = '\r' || c = '\x0b' || c = '\x0c'

/-- Python `str.strip` on a character list. -/
def stripChars (l : List Char) : List Char :=
  ((l.dropWhile pyIsSpace).reverse.dropWhile pyIsSpace).reverse

/-- Python `str.rstrip` on a character list. -/
def rstripChars (l : List Char) : List Char :=
  (l.reverse.dropWhile pyIsSpace).reverse

/-- Python `str.strip`. -/
def pyStrip (s : String) : String := ⟨stripChars s.data⟩

/-- Python `str.rstrip`. -/
def pyRstrip (s : String) : String := ⟨rstripChars s.data⟩

/-- Substring test on character lists (Python `needle in haystack`). -/
def containsChars (needle : List Char) : List Char → Bool
  | [] => needle.isEmpty
  | c :: rest => needle.isPrefixOf (c :: rest) || containsChars needle rest

/-- Python `needle in haystack` for strings. -/
def pyContains (haystack needle : String) : Bool :=
  containsChars needle.data haystack.data

/-- Fuel-driven worker for Python `str.split(sep)` (non-overlapping,
left-to-right); the fuel is an upper bound on the input length, so the
zero-fuel case is unreachable for the wrapper below. -/
def splitFuel (sep : List Char) : Nat → List Char → List Char → List (List Char)
  | 0, s, acc => [acc.reverse ++ s]
  | _ + 1, [], acc => [acc.reverse]
  | fuel + 1, c :: rest, acc =>
    if sep.isPrefixOf (c :: rest) then
      acc.reverse :: splitFuel sep fuel ((c :: rest).drop sep.length) []
    else
      splitFuel sep fuel rest (c :: acc)

/-- Python `s.split(sep)` for a non-empty separator. -/
def pySplit (s sep : String) : List String :=
  if sep.data.isEmpty then [s]
  else (splitFuel sep.data (s.data.length + 1) s.data []).map (fun l => ⟨l⟩)

/-- Python `str.join`. -/
def pyJoin (sep : String) : List String → String
  | [] => ""
  | [x] => x
  | x :: y :: xs => x ++ sep ++ pyJoin sep (y :: xs)

/-- Python `str.upper` (ASCII; the SQL keyword tests only involve ASCII). -/
def pyUpper (s : String) : String := ⟨s.data.map Char.toUpper⟩

/-- Python `str.startswith`. -/
def pyStartsWith (s pre : String) : Bool := pre.data.isPrefixOf s.data

/-- Python `str.endswith`. -/
def pyEndsWith (s suf : String) : Bool := suf.data.reverse.isPrefixOf s.data.reverse

/-- First-occurrence deduplication (Python dict/set key order). -/
def dedupFirstAux (seen : List String) : List String → List String
  | [] => []
  | x :: xs =>
    if seen.contains x then dedupFirstAux seen xs
    else x :: dedupFirstAux (x :: seen) xs

/-- Deduplicate a key list keeping first occurrences. -/
def dedupFirst (l : List String) : List String := dedupFirstAux [] l

/-! ### Python-like numeric primitives over `ℚ` -/

/-- Round-half-to-even to an integer, the rounding used by Python `round`. -/
def rhe (q : ℚ) : ℤ :=
  if q - ⌊q⌋ < 1/2 then ⌊q⌋
  else if 1/2 < q - ⌊q⌋ then ⌊q⌋ + 1
  else if ⌊q⌋ % 2 = 0 then ⌊q⌋ else ⌊q⌋ + 1

/-- Python `round(q, 1)`. -/
def round1 (q : ℚ) : ℚ := (rhe (q * 10) : ℚ) / 10

/-- Python `round(q, 2)`. -/
def round2 (q : ℚ) : ℚ := (rhe (q * 100) : ℚ) / 100

/-- Python `min` of a non-empty list (0 on the unreachable empty list). -/
def pyMin : List ℚ → ℚ
  | [] => 0
  | x :: xs => xs.foldl min x

/-- Python `max` of a non-empty list (0 on the unreachable empty list). -/
def pyMax : List ℚ → ℚ
  | [] => 0
  | x :: xs => xs.foldl max x

/-- Insert into a sorted list, keeping existing order among equals. -/
def insertSorted (x : ℚ) : List ℚ → List ℚ
  | [] => [x]
  | y :: ys => if x ≤ y then x :: y :: ys else y :: insertSorted x ys

/-- Python `sorted` on a list of numbers (insertion sort; extensionally the
same function, since sorting numbers has a unique result). -/
def pySorted : List ℚ → List ℚ
  | [] => []
  | x :: xs => insertSorted x (pySorted xs)

/-- Digit-group an integer with commas (fuel-driven; the fuel is an upper
bound on the digit count, so the zero-fuel case is unreachable). -/
def commaGroup : Nat → List Char → List Char
  | 0, l => l
  | fuel + 1, l =>
    if l.length ≤ 3 then l
    else l.take 3 ++ ',' :: commaGroup fuel (l.drop 3)

/-- Python `f"{n:,}"` for a natural number. -/
def commaFormat (n : ℕ) : String :=
  let ds := (toString n).data
  ⟨(commaGroup ds.length ds.reverse).reverse⟩

/-- Python `f"{q:.2f}"` for a non-negative rational (the sizes formatted in
this code base are non-negative). -/
def format2f (q : ℚ) : String :=
  let r : ℤ := rhe (q * 100)
  let a : ℕ := r.natAbs
  let cents : ℕ := a % 100
  (if r < 0 then "-" else "") ++ toString (a / 100) ++ "." ++
    (if cents < 10 then "0" else "") ++ toString cents

/-! ### `utils/data_utils.py` — row values -/

/-- Scalar cell value of a query-result row.  `num` covers Python int and
float (both satisfy `isinstance(v, (int, float))`), `dt` covers datetime-like
values (carrying a day index so differences of days are expressible),
`other` covers anything else, `null` is Python `None`. -/
inductive Value where
  | num (q : ℚ)
  | str (s : String)
  | dt (day : ℤ)
  | null
  | other
  deriving DecidableEq, Repr

/-- A result row: a Python dict from column name to value (unique keys,
insertion order). -/
def Row := List (String × Value)

/-- String rendering of a value, Python `str(v)` (the numeric and datetime
renderings abstract the CPython repr; only the length of this string feeds
a threshold test in the profiler). -/
def pyStrOfValue : Value → String
  | .str s => s
  | .num q => toString q
  | .dt t => toString t
  | .null => "None"
  | .other => "object"

/-- Keys of the first row, Python `data[0].keys()`. -/
def pyDictKeys (r : Row) : List String := dedupFirst (r.map Prod.fst)

/-- Non-null values of one column across all rows
(`[row[col] for row in data if col in row and row[col] is not None]`). -/
def colValues (data : List Row) (col : String) : List Value :=
  data.filterMap (fun r =>
    match List.lookup col r with
    | some v => if v = Value.null then none else some v
    | none => none)

/-! ### `utils/data_utils.py` — `analyze_data_structure` -/

/-- Per-column analysis record (`col_analysis` dict).  Optional fields model
dict keys that are only present for the matching inferred type. -/
structure ColAnalysis where
  type : String := "unknown"
  non_null_count : ℕ := 0
  null_count : ℕ := 0
  null_percentage : ℚ := 0
  completeness : ℚ := 0
  data_quality_issues : List String := []
  min : Option ℚ := none
  max : Option ℚ := none
  mean : Option ℚ := none
  median : Option ℚ := none
  sum : Option ℚ := none
  range : Option ℚ := none
  outliers : Option ℕ := none
  unique_count : Option ℕ := none
  cardinality : Option ℚ := none
  most_common : Option Value := none
  top_values : List (Value × ℕ) := []
  earliest : Option ℤ := none
  latest : Option ℤ := none
  date_range_days : Option ℤ := none
  consistency_score : ℚ := 0
  deriving Repr

/-- Data-quality summary (`analysis["data_quality"]`). -/
structure DataQuality where
  completeness : ℚ := 0
  consistency : ℚ := 0
  overall_score : ℚ := 0
  deriving DecidableEq, Repr

/-- Result of `analyze_data_structure` (`summary_stats` is never populated by
the source, so it is a constant empty mapping). -/
structure Analysis where
  row_count : ℕ := 0
  columns : List (String × ColAnalysis) := []
  summary_stats : List (String × ℚ) := []
  patterns : List String := []
  data_quality : DataQuality := {}

/-- Finalize one column: `col_analysis["consistency_score"] = max(0, round(score, 1))`. -/
def finishScore (c : ColAnalysis) (score : ℚ) : ColAnalysis :=
  { c with consistency_score := max 0 (round1 score) }

/-- Numeric payloads of the collected values
(`[float(v) for v in values if isinstance(v, (int, float))]`). -/
def numsOf (values : List Value) : List ℚ :=
  values.filterMap (fun v => match v with | .num q => some q | _ => none)

/-- Sorted Q1 position value, `sorted(vals)[len(vals)//4]`. -/
def q1Of (nv : List ℚ) : ℚ := (pySorted nv).getD (nv.length / 4) 0

/-- Sorted Q3 position value, `sorted(vals)[3*len(vals)//4]`. -/
def q3Of (nv : List ℚ) : ℚ := (pySorted nv).getD (3 * nv.length / 4) 0

/-- Middle-sorted-index median, `sorted(vals)[len(vals)//2]` (no averaging
for even lengths). -/
def medianRawOf (nv : List ℚ) : ℚ := (pySorted nv).getD (nv.length / 2) 0

/-- IQR outliers: values outside `[q1 - 1.5*iqr, q3 + 1.5*iqr]`. -/
def outliersOf (nv : List ℚ) : List ℚ :=
  let q1 := q1Of nv
  let q3 := q3Of nv
  let iqr := q3 - q1
  nv.filter (fun v => decide (v < q1 - 3/2 * iqr) || decide (q3 + 3/2 * iqr < v))

/-- Numeric branch of the per-column loop (first non-null value is a number). -/
def numericBranch (values : List Value) (c : ColAnalysis) : ColAnalysis :=
  let c := { c with type := "numeric" }
  let nv := numsOf values
  if nv.isEmpty then finishScore c 100
  else
    let mn := pyMin nv
    let mx := pyMax nv
    let c := { c with
      min := some mn
      max := some mx
      mean := some (round2 (nv.sum / nv.length))
      median := some (round2 (medianRawOf nv))
      sum := some nv.sum
      range := some (mx - mn) }
    let outs := outliersOf nv
    if outs.isEmpty then finishScore c 100
    else
      finishScore
        { c with
          outliers := some outs.length
          data_quality_issues :=
            c.data_quality_issues ++ [toString outs.length ++ "개의 이상치 발견"] }
        (100 - Min.min 20 ((outs.length : ℚ) / nv.length * 100))

/-- First-occurrence distinct values, modelling iteration over `set(values)`
(CPython set order is unspecified; none of the verified properties depend
on it). -/
def distinctValuesAux (seen : List Value) : List Value → List Value
  | [] => []
  | x :: xs =>
    if seen.contains x then distinctValuesAux seen xs
    else x :: distinctValuesAux (x :: seen) xs

/-- Distinct values in first-occurrence order. -/
def distinctValues (l : List Value) : List Value := distinctValuesAux [] l

/-- Python `max(set(values), key=values.count)` (first maximal wins). -/
def mostCommonOf (values : List Value) : Option Value :=
  match distinctValues values with
  | [] => none
  | x :: xs =>
    some (xs.foldl (fun b a => if values.count b < values.count a then a else b) x)

/-- Top-5 value counts over the first 100 distinct values, sorted by count
descending (`sorted(..., key=lambda x: x[1], reverse=True)[:5]`). -/
def topValuesOf (values : List Value) : List (Value × ℕ) :=
  let pairs := (distinctValues (values.take 100)).map (fun v => (v, values.count v))
  ((pairs.mergeSort (fun a b => b.2 ≤ a.2)).take 5)

/-- Categorical branch of the per-column loop (first non-null value is a
string). -/
def categoricalBranch (values : List Value) (c : ColAnalysis) : ColAnalysis :=
  let c := { c with type := "categorical" }
  let uniq := distinctValues values
  let c := { c with
    unique_count := some uniq.length
    cardinality := some (round1 ((uniq.length : ℚ) / values.length * 100))
    most_common := mostCommonOf values
    top_values := topValuesOf values }
  let empty_strings :=
    (values.filter (fun v =>
      match v with | .str s => pyStrip s = "" | _ => false)).length
  let score1 : ℚ :=
    if 0 < empty_strings then
      100 - Min.min 15 ((empty_strings : ℚ) / values.length * 100)
    else 100
  let c :=
    if 0 < empty_strings then
      { c with data_quality_issues :=
          c.data_quality_issues ++ [toString empty_strings ++ "개의 빈 문자열"] }
    else c
  let string_lengths := values.map (fun v => (pyStrOfValue v).length)
  let length_variance :=
    (string_lengths.foldl Max.max 0) -
      (match string_lengths with | [] => 0 | x :: xs => xs.foldl Min.min x)
  if 100 < length_variance then
    finishScore
      { c with data_quality_issues := c.data_quality_issues ++ ["문자열 길이 불일치"] }
      (score1 - 10)
  else finishScore c score1

/-- Datetime branch of the per-column loop (first non-null value is
datetime-like). -/
def datetimeBranch (values : List Value) (c : ColAnalysis) : ColAnalysis :=
  let c := { c with type := "datetime" }
  let dv := values.filterMap (fun v => match v with | .dt t => some t | _ => none)
  let c :=
    match dv with
    | [] => c
    | t :: ts =>
      let earliest := ts.foldl Min.min t
      let latest := ts.foldl Max.max t
      { c with
        earliest := some earliest
        latest := some latest
        date_range_days := some (if 1 < dv.length then latest - earliest else 0) }
  finishScore c 100

/-- Mixed branch of the per-column loop (first non-null value is neither
number, string nor datetime-like). -/
def mixedBranch (c : ColAnalysis) : ColAnalysis :=
  finishScore
    { c with type := "mixed"
             data_quality_issues := c.data_quality_issues ++ ["혼합된 데이터 타입"] }
    (100 - 25)

/-- Raw (unrounded) completeness of a column, the `completeness` local used
for the data-quality totals. -/
def rawCompleteness (data : List Row) (col : String) : ℚ :=
  if 0 < data.length then
    ((colValues data col).length : ℚ) / data.length * 100
  else 0

/-- Per-column loop body of `analyze_data_structure`. -/
def analyzeColumn (data : List Row) (col : String) : ColAnalysis :=
  let values := colValues data col
  let n := data.length
  let base : ColAnalysis := {
    non_null_count := values.length
    null_count := n - values.length
    null_percentage :=
      if 0 < n then round1 (((n - values.length : ℕ) : ℚ) / n * 100) else 0
    completeness := if 0 < n then round1 (rawCompleteness data col) else 0 }
  match values with
  | [] => finishScore base 100
  | v :: vs =>
    match v with
    | .num _ => numericBranch (v :: vs) base
    | .str _ => categoricalBranch (v :: vs) base
    | .dt _ => datetimeBranch (v :: vs) base
    | .null => mixedBranch base
    | .other => mixedBranch base

/-- All-zero result returned for empty input. -/
def emptyAnalysis : Analysis :=
  { row_count := 0, columns := [], summary_stats := [], patterns := []
    data_quality := { completeness := 0, consistency := 0, overall_score := 0 } }

/-- `analyze_data_structure` from `utils/data_utils.py`.  The two defensive
branches for a non-list argument and a non-dict first row are not
representable (the embedding is typed); rows model Python dicts. -/
def analyze_data_structure (data : List Row) : Analysis :=
  if data.isEmpty then emptyAnalysis
  else
    let keys := pyDictKeys (data.headD [])
    let cols := keys.map (fun c => (c, analyzeColumn data c))
    let total_completeness := (keys.map (fun c => rawCompleteness data c)).sum
    let total_consistency := (cols.map (fun p => p.2.consistency_score)).sum
    let num_columns := cols.length
    let dq : DataQuality :=
      if 0 < num_columns then
        let comp := round1 (total_completeness / num_columns)
        let cons := round1 (total_consistency / num_columns)
        { completeness := comp, consistency := cons
          overall_score := round1 ((comp + cons) / 2) }
      else { completeness := 0, consistency := 0, overall_score := 0 }
    { row_count := data.length, columns := cols, summary_stats := []
      patterns := [], data_quality := dq }

/-! ### `utils/data_utils.py` — `suggest_chart_config` -/

/-- Chart configuration suggestion. -/
structure ChartConfig where
  type : String
  label_column : String := ""
  value_column : Option String := none
  value_columns : Option (List String) := none
  title : String
  chart_library : String
  deriving DecidableEq, Repr

/-- Truthiness of a value for `isinstance(v, (int, float))`. -/
def isNumVal : Value → Bool
  | .num _ => true
  | _ => false

/-- `suggest_chart_config` from `utils/data_utils.py`.  A missing column key
in the first row raises `KeyError` in Python; that is the `.error` case. -/
def suggest_chart_config (data : List Row) (columns : List String) :
    Except Unit (Option ChartConfig) :=
  if data.isEmpty then .ok none
  else if columns.length = 1 then .ok none
  else
    let row0 := data.headD []
    if columns.length = 2 then
      let col1 := columns.getD 0 ""
      let col2 := columns.getD 1 ""
      match List.lookup col1 row0, List.lookup col2 row0 with
      | some v1, some v2 =>
        let first_val1 := if v1 = Value.null then Value.str "" else v1
        let first_val2 := if v2 = Value.null then Value.num 0 else v2
        match first_val2 with
        | .num _ =>
          match first_val1 with
          | .str _ =>
            .ok (some { type := "bar", label_column := col1
                        value_column := some col2
                        title := col1 ++ "별 " ++ col2
                        chart_library := "Chart.js" })
          | _ => .ok none
        | _ => .ok none
      | _, _ => .error ()
    else if 3 ≤ columns.length then
      let label_col := columns.getD 0 ""
      let value_cols := columns.tail
      let all_numeric : Except Unit Bool :=
        value_cols.foldlM (fun acc col =>
          if !acc then pure false
          else
            match List.lookup col row0 with
            | some v => pure (v = Value.null || isNumVal v)
            | none => .error ()) true
      match all_numeric with
      | .error e => .error e
      | .ok true =>
        .ok (some { type := if 1 < value_cols.length then "line" else "bar"
                    label_column := label_col
                    value_columns := some value_cols
                    title := label_col ++ "별 데이터 비교"
                    chart_library := "Chart.js" })
      | .ok false => .ok none
    else .ok none

/-! ### `config/schema_config.py` — `DynamicSchemaManager` -/

/-- BigQuery schema field as stored in extracted metadata (`name`, `type`,
`mode`, `description`, nested `fields` for RECORD types; the embedding keeps
the keys the prompt builder reads). -/
inductive SchemaField where
  | mk (name : String) (ftype : String) (mode : String) (description : String)
      (fields : List SchemaField)

/-- Field name. -/
def SchemaField.name : SchemaField → String | .mk n _ _ _ _ => n

/-- Field type string. -/
def SchemaField.ftype : SchemaField → String | .mk _ t _ _ _ => t

/-- Field mode string. -/
def SchemaField.mode : SchemaField → String | .mk _ _ m _ _ => m

/-- Field description. -/
def SchemaField.description : SchemaField → String | .mk _ _ _ d _ => d

/-- Nested sub-fields (non-empty only for RECORD fields). -/
def SchemaField.fields : SchemaField → List SchemaField | .mk _ _ _ _ fs => fs

/-- Table metadata entry as produced by `extract_table_metadata`; an `error`
entry replaces the payload for failed extractions. -/
structure TableInfo where
  num_rows : ℕ := 0
  num_bytes : ℕ := 0
  created : String := "N/A"
  description : String := ""
  schema : List SchemaField := []
  partitioning : Option (String × String) := none
  clustering : Option (List String) := none
  error : Option String := none

/-- `self.field_type_mappings` of `DynamicSchemaManager`. -/
def field_type_mappings : List (String × String) :=
  [("STRING", "텍스트"), ("INTEGER", "정수"), ("FLOAT", "실수"),
   ("BOOLEAN", "불린"), ("DATE", "날짜"), ("DATETIME", "날짜시간"),
   ("TIMESTAMP", "타임스탬프"), ("TIME", "시간"), ("NUMERIC", "숫자"),
   ("BIGNUMERIC", "큰숫자"), ("BYTES", "바이너리"), ("RECORD", "중첩구조"),
   ("REPEATED", "배열")]

/-- The unit list of `DynamicSchemaManager._format_size` (note: no PB). -/
def format_size_units : List String := ["B", "KB", "MB", "GB", "TB"]

/-- The `while size >= 1024 and unit_index < bound` loop shared by the two
size formatters, returning the final `(size, unit_index)`.  Fuel-driven;
every call below passes fuel = `bound`, which suffices because the index
grows by one per iteration. -/
def sizeLoop (bound : Nat) : Nat → ℚ → Nat → ℚ × Nat
  | 0, size, idx => (size, idx)
  | fuel + 1, size, idx =>
    if 1024 ≤ size ∧ idx < bound then sizeLoop bound fuel (size / 1024) (idx + 1)
    else (size, idx)

/-- Final unit index chosen by `DynamicSchemaManager._format_size`. -/
def schemaSizeIndex (b : ℕ) : ℕ := (sizeLoop 4 4 (b : ℚ) 0).2

/-- Final scaled size chosen by `DynamicSchemaManager._format_size`. -/
def schemaSizeMantissa (b : ℕ) : ℚ := (sizeLoop 4 4 (b : ℚ) 0).1

/-- Unit string rendered by `DynamicSchemaManager._format_size`. -/
def schemaSizeUnit (b : ℕ) : String :=
  if b = 0 then "B" else format_size_units.getD (schemaSizeIndex b) ""

/-- `DynamicSchemaManager._format_size` from `config/schema_config.py`. -/
def format_size (b : ℕ) : String :=
  if b = 0 then "0 B"
  else format2f (schemaSizeMantissa b) ++ " " ++ schemaSizeUnit b

/-- `DynamicSchemaManager._format_field_description`. -/
def format_field_description (f : SchemaField) (indent : String) : String :=
  let type_info :=
    match List.lookup f.ftype field_type_mappings with
    | some t => t
    | none => f.ftype
  let type_info :=
    if f.mode = "REPEATED" then type_info ++ " (배열)"
    else if f.mode = "REQUIRED" then type_info ++ " (필수)"
    else type_info
  let desc_part := if f.description ≠ "" then " - " ++ f.description else ""
  indent ++ "`" ++ f.name ++ "` (" ++ type_info ++ ")" ++ desc_part

/-- Lines of one table block inside the detailed schema prompt. -/
def tableSection (tid : String) (ti : TableInfo) : List String :=
  match ti.error with
  | some err => ["## 테이블: `" ++ tid ++ "` ❌", "- **오류**: " ++ err, ""]
  | none =>
    ["## 테이블: `" ++ tid ++ "`",
     "- **행 수**: " ++ commaFormat ti.num_rows,
     "- **크기**: " ++ format_size ti.num_bytes,
     "- **생성일**: " ++ ti.created,
     "- **설명**: " ++ (if ti.description = "" then "설명 없음" else ti.description),
     ""]
    ++ (match ti.partitioning with
        | some (f, t) => ["- **파티셔닝**: " ++ f ++ " (" ++ t ++ ")"]
        | none => [])
    ++ (match ti.clustering with
        | some fs => ["- **클러스터링**: " ++ pyJoin ", " fs]
        | none => [])
    ++ ["- **스키마**:"]
    ++ (ti.schema.map (fun f =>
          ("  - " ++ format_field_description f "") ::
          f.fields.map (fun sub => "    - " ++ format_field_description sub "    "))).flatten
    ++ [""]

/-- Last-wins association lookup, modelling a Python dict comprehension in
which a later duplicate key overrides an earlier one. -/
def lookupLast (l : List (String × String)) (n : String) : Option String :=
  (l.reverse.find? (fun p => p.1 == n)).map (fun p => p.2)

/-- A common field found by `_analyze_table_relationships`. -/
structure CommonField where
  field : String
  ftype : String
  tables : List String
  is_join_key_name : Bool

/-- Per-table `{name: type}` mappings of the non-error tables. -/
def schemaTableFields (tables : List (String × TableInfo)) :
    List (String × List (String × String)) :=
  tables.filterMap (fun p =>
    match p.2.error with
    | none => some (p.1, p.2.schema.map (fun f => (f.name, f.ftype)))
    | some _ => none)

/-- Common fields across tables, in first-occurrence order (the source
iterates a Python set here; order is unspecified there). -/
def commonFieldsOf (table_fields : List (String × List (String × String))) :
    List CommonField :=
  let all_field_names := dedupFirst ((table_fields.map (fun p => p.2.map Prod.fst)).flatten)
  all_field_names.filterMap (fun fname =>
    let appearing := (table_fields.filter (fun p => (lookupLast p.2 fname).isSome)).map Prod.fst
    if 1 < appearing.length then
      let ftypes := (table_fields.filter (fun p => (lookupLast p.2 fname).isSome)).map
        (fun p => (lookupLast p.2 fname).getD "")
      if ftypes.all (fun t => t = ftypes.headD "") then
        some { field := fname, ftype := ftypes.headD "", tables := appearing
               is_join_key_name := pyEndsWith fname "_id" || fname == "id" }
      else none
    else none)

/-- `DynamicSchemaManager._analyze_table_relationships` (the prompt text). -/
def analyze_table_relationships_text (tables : List (String × TableInfo)) : String :=
  if tables.length < 2 then "- 단일 테이블이므로 관계 분석 불가"
  else
    let common := commonFieldsOf (schemaTableFields tables)
    if common.isEmpty then "- 공통 필드가 발견되지 않음"
    else
      pyJoin "\n" ((common.take 5).map (fun cf =>
        let tables_str := pyJoin ", " (cf.tables.map (fun t => "`" ++ t ++ "`"))
        let join_hint := if cf.is_join_key_name then " (조인 키 가능)" else ""
        "- **" ++ cf.field ++ "** (" ++ cf.ftype ++ "): " ++ tables_str ++ join_hint))

/-- Recommended query-pattern lines for one table. -/
def queryPatternLines (tid : String) (ti : TableInfo) : List String :=
  match ti.error with
  | some _ => []
  | none =>
    if ti.schema.isEmpty then []
    else
      ["```sql", "-- " ++ tid ++ " 기본 조회",
       "SELECT * FROM `" ++ tid ++ "` LIMIT 10;"]
      ++ (match ti.schema.filter (fun f =>
            ["INTEGER", "FLOAT", "NUMERIC", "BIGNUMERIC"].contains f.ftype) with
          | [] => []
          | f :: _ =>
            ["", "-- " ++ tid ++ " 숫자 집계 예시",
             "SELECT COUNT(*), AVG(" ++ f.name ++ "), MAX(" ++ f.name ++ ") FROM `"
               ++ tid ++ "`;"])
      ++ (match ti.schema.filter (fun f =>
            f.ftype == "STRING" && !(pyEndsWith f.name "_id")) with
          | [] => []
          | f :: _ =>
            ["", "-- " ++ tid ++ " 그룹별 집계 예시",
             "SELECT " ++ f.name ++ ", COUNT(*) FROM `" ++ tid ++ "` GROUP BY "
               ++ f.name ++ " ORDER BY COUNT(*) DESC LIMIT 10;"])
      ++ ["```", ""]

/-- `DynamicSchemaManager._generate_query_patterns`. -/
def generate_query_patterns (tables : List (String × TableInfo)) : String :=
  let patterns := (tables.map (fun p => queryPatternLines p.1 p.2)).flatten
  if patterns.isEmpty then "- 추천 패턴 없음" else pyJoin "\n" patterns

/-- Summary block stored with a registered schema. -/
structure SchemaSummary where
  total_size_bytes : ℕ := 0

/-- Metadata passed to `register_schema`. -/
structure SchemaMetadata where
  tables : List (String × TableInfo) := []
  summary : SchemaSummary := {}
  extracted_at : String := ""

/-- Cached schema entry (`self.cached_schemas[schema_key]`). -/
structure SchemaData where
  project_id : String
  tables : List (String × TableInfo)
  summary : SchemaSummary
  registered_at : String

/-- The cache entry written by `register_schema`. -/
def registeredEntry (project_id : String) (metadata : SchemaMetadata) : SchemaData :=
  { project_id := project_id, tables := metadata.tables
    summary := metadata.summary, registered_at := metadata.extracted_at }

/-- The `cached_schemas` mapping. -/
def SchemaState := List (String × SchemaData)

/-- Python dict assignment: replace in place if present, else append. -/
def dictSet {α : Type} : List (String × α) → String → α → List (String × α)
  | [], k, v => [(k, v)]
  | (k', v') :: rest, k, v =>
    if k' = k then (k, v) :: rest else (k', v') :: dictSet rest k v

/-- `DynamicSchemaManager.register_schema`. -/
def register_schema (st : SchemaState) (project_id : String)
    (metadata : SchemaMetadata) : SchemaState :=
  dictSet st project_id (registeredEntry project_id metadata)

/-- `DynamicSchemaManager._generate_fallback_prompt`. -/
def generate_fallback_prompt (project_id : String)
    (table_ids : Option (List String)) : String :=
  let tables_info := pyJoin "\n" ((table_ids.getD []).map (fun t => "- `" ++ t ++ "`"))
  "다음은 BigQuery 프로젝트의 테이블 정보입니다:\n\n**프로젝트 ID**: " ++ project_id
    ++ "\n\n**분석 대상 테이블들**:\n" ++ tables_info
    ++ "\n\n**주의사항**: \n- 스키마 정보가 불완전하므로 일반적인 BigQuery 패턴을 따라 쿼리를 작성해주세요.\n- 테이블 참조 시 반드시 백틱(`)을 사용하세요.\n- 가능한 한 LIMIT을 사용하여 결과를 제한해주세요.\n"

/-- Tables in scope for the detailed prompt (`filtered_tables`). -/
def filteredTables (sd : SchemaData) (target : Option (List String)) :
    List (String × TableInfo) :=
  match target with
  | some (t :: ts) =>
    (dedupFirst (t :: ts)).filterMap (fun tid =>
      (List.lookup tid sd.tables).map (fun ti => (tid, ti)))
  | _ => sd.tables

/-- Line list of `_build_detailed_schema_prompt`. -/
def buildPromptParts (sd : SchemaData) (target : Option (List String)) : List String :=
  let filtered := filteredTables sd target
  ["# BigQuery 프로젝트 스키마 정보", "",
   "**프로젝트 ID**: " ++ sd.project_id,
   "**총 테이블 수**: " ++ toString filtered.length ++ "개",
   "**총 데이터 규모**: " ++ format_size sd.summary.total_size_bytes,
   ""]
  ++ (filtered.map (fun p => tableSection p.1 p.2)).flatten
  ++ (if 1 < filtered.length then
        ["## 테이블 간 관계 분석", analyze_table_relationships_text filtered, ""]
      else [])
  ++ ["## 추천 쿼리 패턴", generate_query_patterns filtered, ""]

/-- `DynamicSchemaManager._build_detailed_schema_prompt`. -/
def build_detailed_schema_prompt (sd : SchemaData)
    (target : Option (List String)) : String :=
  pyJoin "\n" (buildPromptParts sd target)

/-- `DynamicSchemaManager.get_schema_prompt`. -/
def get_schema_prompt (st : SchemaState) (project_id : String)
    (table_ids : Option (List String)) : String :=
  match List.lookup project_id st with
  | none => generate_fallback_prompt project_id table_ids
  | some sd => build_detailed_schema_prompt sd table_ids

/-! ### `utils/bigquery_utils.py` — table relationships and size formatting -/

/-- Schema field of an extracted table, with the keys the relationship
analysis reads (`name`, `type`). -/
structure BQField where
  name : String
  ftype : String
  deriving DecidableEq, Repr

/-- Extracted table metadata, with the keys the relationship analysis
reads. -/
structure BQTable where
  table_id : String
  schema : List BQField
  deriving DecidableEq, Repr

/-- A join-key candidate produced by `analyze_table_relationship`. -/
structure JoinKey where
  field : String
  ftype : String
  confidence : String
  deriving DecidableEq, Repr

/-- A relationship record produced by `analyze_table_relationship`. -/
structure TableRelationship where
  table1 : String
  table2 : String
  relationship_strength : ℚ
  common_fields : List String
  potential_join_keys : List JoinKey
  suggested_join : Option String
  deriving DecidableEq, Repr

/-- Last-wins name lookup in a schema, modelling the Python dict
comprehension `{f["name"]: f for f in schema}`. -/
def lookupLastBQ (l : List BQField) (n : String) : Option BQField :=
  l.reverse.find? (fun f => f.name == n)

/-- Shared field names of two tables, in first-occurrence order of the first
table (the source iterates a Python set intersection; order unspecified). -/
def commonFieldNames (t1 t2 : BQTable) : List String :=
  (dedupFirst (t1.schema.map BQField.name)).filter
    (fun n => (lookupLastBQ t2.schema n).isSome)

/-- Size of the union of the two key sets
(`len(set(table1_fields) | set(table2_fields))`). -/
def totalFieldsCount (t1 t2 : BQTable) : ℕ :=
  (dedupFirst (t1.schema.map BQField.name ++ t2.schema.map BQField.name)).length

/-- Whether a field name looks like a join key
(`endswith("_id") or endswith("_key") or == "id"`). -/
def isJoinKeyName (n : String) : Bool :=
  pyEndsWith n "_id" || pyEndsWith n "_key" || n == "id"

/-- Join-key candidates of the shared fields (high when name pattern and
type both match, medium when only the type matches, nothing otherwise). -/
def potentialJoinKeys (t1 t2 : BQTable) : List JoinKey :=
  (commonFieldNames t1 t2).filterMap (fun nm =>
    match lookupLastBQ t1.schema nm, lookupLastBQ t2.schema nm with
    | some f1, some f2 =>
      if f1.ftype = f2.ftype && isJoinKeyName nm then
        some { field := nm, ftype := f1.ftype, confidence := "high" }
      else if f1.ftype = f2.ftype then
        some { field := nm, ftype := f1.ftype, confidence := "medium" }
      else none
    | _, _ => none)

/-- `_suggest_join_query` (Python `max` keeps the first maximal element). -/
def suggest_join_query (t1 t2 : BQTable) (join_keys : List JoinKey) : Option String :=
  match join_keys with
  | [] => none
  | k :: ks =>
    let keyVal : JoinKey → ℤ := fun j => if j.confidence = "high" then 1 else 0
    let best := ks.foldl (fun b a => if keyVal b < keyVal a then a else b) k
    some ("-- 테이블 조인 예시\nSELECT \n    t1.*,\n    t2.*\nFROM `"
      ++ t1.table_id ++ "` t1\nJOIN `" ++ t2.table_id ++ "` t2\nON t1."
      ++ best.field ++ " = t2." ++ best.field ++ "\nLIMIT 100;")

/-- `analyze_table_relationship` from `utils/bigquery_utils.py`. -/
def analyze_table_relationship (t1 t2 : BQTable) : Option TableRelationship :=
  let common := commonFieldNames t1 t2
  if common.isEmpty then none
  else
    let strength : ℚ := (common.length : ℚ) / (totalFieldsCount t1 t2) * 100
    let jk := potentialJoinKeys t1 t2
    if 10 < strength ∨ jk ≠ [] then
      some { table1 := t1.table_id, table2 := t2.table_id
             relationship_strength := round1 strength
             common_fields := common
             potential_join_keys := jk
             suggested_join := suggest_join_query t1 t2 jk }
    else none

/-- The unit list of `format_table_size` (this one does include PB). -/
def table_size_units : List String := ["B", "KB", "MB", "GB", "TB", "PB"]

/-- `format_table_size` from `utils/bigquery_utils.py`. -/
def format_table_size (b : ℕ) : String :=
  if b = 0 then "0 B"
  else
    let p := sizeLoop 5 5 (b : ℚ) 0
    if p.2 = 0 then toString ⌊p.1⌋ ++ " " ++ table_size_units.getD p.2 ""
    else format2f p.1 ++ " " ++ table_size_units.getD p.2 ""

/-! ### `core/analyzer.py` — SQL sanitizer and HTML report loop -/

/-- SQL keywords that keep a `--` comment line
(`['SELECT', 'FROM', 'WHERE', 'GROUP', 'ORDER', 'LIMIT']`). -/
def sql_keywords : List String := ["SELECT", "FROM", "WHERE", "GROUP", "ORDER", "LIMIT"]

/-- `IntegratedAnalyzer._clean_sql_query`. -/
def clean_sql_query (sql0 : String) : String :=
  let sql1 :=
    if pyContains sql0 "```sql" then
      let a :=
        if pyContains sql0 "```sql" then (pySplit sql0 "```sql").getD 1 "" else sql0
      if pyContains a "```" then (pySplit a "```").getD 0 "" else a
    else if pyContains sql0 "```" then
      let parts := pySplit sql0 "```"
      if 3 ≤ parts.length then parts.getD 1 "" else sql0
    else sql0
  let s := pyStrip sql1
  let lines := pySplit s "\n"
  let cleaned := lines.filterMap (fun line =>
    let l := pyStrip line
    if l = "" then none
    else if pyStartsWith l "--"
        && !(sql_keywords.any (fun k => pyContains (pyUpper l) k)) then none
    else some l)
  let q := pyJoin "\n" cleaned
  if pyEndsWith (pyRstrip q) ";" then q else pyRstrip q ++ ";"

/-- `IntegratedAnalyzer._validate_html_quality`. -/
def validate_html_quality (h : String) : ℤ :=
  let score : ℤ := 100
  let score := if !(pyStartsWith h "<!DOCTYPE") then score - 20 else score
  let score :=
    if pyContains h "Chart.js" && !(pyContains h "cdnjs.cloudflare.com") then
      score - 20
    else score
  let score := if !(pyContains h "new Chart(") then score - 15 else score
  let score := if !(pyContains h "<style>") then score - 15 else score
  max 0 score

/-- Receipt-and-cleanup step of `generate_html_report`: strip the raw LLM
text, then unwrap a fenced block unless it already starts as a document. -/
def clean_html_response (raw : String) : String :=
  let t := pyStrip raw
  if pyStartsWith t "<!DOCTYPE" || pyStartsWith t "<html" then t
  else if pyContains t "```html" then
    pyStrip ((pySplit ((pySplit t "```html").getD 1 "") "```").getD 0 "")
  else if pyContains t "```" then
    pyStrip ((pySplit t "```").getD 1 "")
  else t

/-- `IntegratedAnalyzer._generate_fallback_html` (literal braces of the CSS
are written as hexadecimal escapes). -/
def generate_fallback_html (question : String) (result_count : ℕ) : String :=
  "<!DOCTYPE html>\n<html lang=\"ko\">\n<head>\n    <meta charset=\"UTF-8\">\n    <meta name=\"viewport\" content=\"width=device-width, initial-scale=1.0\">\n    <title>"
  ++ question
  ++ " - 분석 결과</title>\n    <style>\n        body \x7b font-family: \x27Segoe UI\x27, sans-serif; margin: 0; padding: 20px; background: #f5f5f5; \x7d\n        .container \x7b max-width: 800px; margin: 0 auto; background: white; border-radius: 12px; padding: 30px; box-shadow: 0 4px 12px rgba(0,0,0,0.1); \x7d\n        .header \x7b text-align: center; margin-bottom: 30px; color: #333; \x7d\n        .data-table \x7b width: 100%; border-collapse: collapse; margin: 20px 0; \x7d\n        .data-table th \x7b background: #4285f4; color: white; padding: 12px; text-align: left; \x7d\n        .data-table td \x7b padding: 10px; border-bottom: 1px solid #ddd; \x7d\n        .summary \x7b background: #f8f9fa; padding: 15px; border-radius: 8px; margin: 20px 0; \x7d\n    </style>\n</head>\n<body>\n    <div class=\"container\">\n        <div class=\"header\">\n            <h1>📊 "
  ++ question
  ++ "</h1>\n            <p>BigQuery 분석 결과 • "
  ++ toString result_count
  ++ "개 결과</p>\n        </div>\n        <div class=\"summary\">\n            <h3>📋 기본 분석 리포트</h3>\n            <p>총 "
  ++ toString result_count
  ++ "개의 레코드가 조회되었습니다.</p>\n        </div>\n    </div>\n</body>\n</html>"

/-- Result bundle of `generate_html_report`. -/
structure HtmlReport where
  html_content : String
  quality_score : ℤ
  attempts : ℕ
  fallback : Bool
  deriving Repr

/-- `IntegratedAnalyzer.generate_html_report`, with the `max_attempts = 2`
retry loop unrolled; `responses` is the sequence of raw LLM response texts
consumed by the successive generation calls (the external service is pure
input here; transport exceptions are not modelled). -/
def generate_html_report (question : String) (query_results : List Row)
    (responses : List String) : HtmlReport :=
  if query_results.isEmpty then
    { html_content := generate_fallback_html question 0
      quality_score := 60, attempts := 1, fallback := true }
  else
    let h0 := clean_html_response (responses.getD 0 "")
    let s0 := validate_html_quality h0
    if 70 ≤ s0 then
      { html_content := h0, quality_score := s0, attempts := 1, fallback := false }
    else
      let h1 := clean_html_response (responses.getD 1 "")
      let s1 := validate_html_quality h1
      if 70 ≤ s1 then
        { html_content := h1, quality_score := s1, attempts := 2, fallback := false }
      else
        { html_content := generate_fallback_html question query_results.length
          quality_score := 60, attempts := 2, fallback := true }

/-! ### Helper lemmas -/

/-- Lower bound of round-half-to-even. -/
theorem le_rhe (q : ℚ) : q - 1/2 ≤ (rhe q : ℚ) := by
  have h1 := Int.floor_le q
  have h2 := Int.lt_floor_add_one q
  unfold rhe
  split_ifs <;> push_cast <;> linarith

/-- Upper bound of round-half-to-even. -/
theorem rhe_le (q : ℚ) : (rhe q : ℚ) ≤ q + 1/2 := by
  have h1 := Int.floor_le q
  have h2 := Int.lt_floor_add_one q
  unfold rhe
  split_ifs <;> push_cast <;> linarith

/-- Evaluation of `rhe` when the fractional part is below one half. -/
theorem rhe_eq (q : ℚ) (z : ℤ) (h1 : (z : ℚ) ≤ q) (h2 : q < z + 1/2) : rhe q = z := by
  have hf : ⌊q⌋ = z := by
    rw [Int.floor_eq_iff]
    constructor
    · exact h1
    · linarith
  unfold rhe
  rw [hf, if_pos (by linarith)]


/-- Evaluation of `rhe` when the fractional part is above one half. -/
theorem rhe_eq_up (q : ℚ) (z : ℤ) (h1 : (z : ℚ) + 1/2 < q) (h2 : q < z + 1) :
    rhe q = z + 1 := by
  have hf : ⌊q⌋ = z := by
    rw [Int.floor_eq_iff]
    constructor
    · linarith
    · linarith
  unfold rhe
  rw [hf, if_neg (by linarith), if_pos (by linarith)]

/-- Two-decimal rounding moves a value by at most `1/200`. -/
theorem round2_bounds (q : ℚ) : q - 1/200 ≤ round2 q ∧ round2 q ≤ q + 1/200 := by
  have h1 := le_rhe (q * 100)
  have h2 := rhe_le (q * 100)
  unfold round2
  constructor <;> linarith

/-- One-decimal rounding never exceeds `100` for inputs at most `100`. -/
theorem round1_le_100 (q : ℚ) (h : q ≤ 100) : round1 q ≤ 100 := by
  have h2 := rhe_le (q * 10)
  have hz : rhe (q * 10) ≤ 1000 := by
    by_contra hc
    push_neg at hc
    have : ((1001 : ℤ) : ℚ) ≤ (rhe (q * 10) : ℚ) := by exact_mod_cast hc
    push_cast at this
    linarith
  have : ((rhe (q * 10) : ℤ) : ℚ) ≤ 1000 := by exact_mod_cast hz
  unfold round1
  linarith

/-- A fold of `min` is below its initial accumulator. -/
theorem foldl_min_le_init (l : List ℚ) (a : ℚ) : l.foldl min a ≤ a := by
  induction l generalizing a with
  | nil => simp
  | cons x xs ih =>
    calc (x :: xs).foldl min a = xs.foldl min (min a x) := rfl
    _ ≤ min a x := ih _
    _ ≤ a := min_le_left _ _

/-- A fold of `min` is below every list member. -/
theorem foldl_min_le_mem {l : List ℚ} {x : ℚ} (hx : x ∈ l) (a : ℚ) :
    l.foldl min a ≤ x := by
  induction l generalizing a with
  | nil => cases hx
  | cons y ys ih =>
    rcases List.mem_cons.mp hx with h | h
    · subst h
      calc (x :: ys).foldl min a = ys.foldl min (min a x) := rfl
      _ ≤ min a x := foldl_min_le_init _ _
      _ ≤ x := min_le_right _ _
    · exact ih h _

/-- `pyMin` is a lower bound of the list. -/
theorem pyMin_le_of_mem {l : List ℚ} {x : ℚ} (hx : x ∈ l) : pyMin l ≤ x := by
  cases l with
  | nil => cases hx
  | cons a as =>
    rcases List.mem_cons.mp hx with h | h
    · subst h; exact foldl_min_le_init _ _
    · exact foldl_min_le_mem h _

/-- A fold of `max` is above its initial accumulator. -/
theorem le_foldl_max_init (l : List ℚ) (a : ℚ) : a ≤ l.foldl max a := by
  induction l generalizing a with
  | nil => simp
  | cons x xs ih =>
    calc a ≤ max a x := le_max_left _ _
    _ ≤ xs.foldl max (max a x) := ih _
    _ = (x :: xs).foldl max a := rfl

/-- A fold of `max` is above every list member. -/
theorem mem_le_foldl_max {l : List ℚ} {x : ℚ} (hx : x ∈ l) (a : ℚ) :
    x ≤ l.foldl max a := by
  induction l generalizing a with
  | nil => cases hx
  | cons y ys ih =>
    rcases List.mem_cons.mp hx with h | h
    · subst h
      calc x ≤ max a x := le_max_right _ _
      _ ≤ ys.foldl max (max a x) := le_foldl_max_init _ _
      _ = (x :: ys).foldl max a := rfl
    · exact ih h _

/-- `pyMax` is an upper bound of the list. -/
theorem le_pyMax_of_mem {l : List ℚ} {x : ℚ} (hx : x ∈ l) : x ≤ pyMax l := by
  cases l with
  | nil => cases hx
  | cons a as =>
    rcases List.mem_cons.mp hx with h | h
    · subst h; exact le_foldl_max_init _ _
    · exact mem_le_foldl_max h _

/-- `insertSorted` permutes insertion. -/
theorem insertSorted_perm (x : ℚ) (l : List ℚ) :
    (insertSorted x l).Perm (x :: l) := by
  induction l with
  | nil => simp [insertSorted]
  | cons y ys ih =>
    unfold insertSorted
    split_ifs
    · exact List.Perm.refl _
    · exact (ih.cons y).trans (List.Perm.swap x y ys)

/-- `pySorted` permutes its input. -/
theorem pySorted_perm (l : List ℚ) : (pySorted l).Perm l := by
  induction l with
  | nil => simp [pySorted]
  | cons x xs ih => exact (insertSorted_perm x (pySorted xs)).trans (ih.cons x)

/-- `pySorted` preserves length. -/
theorem pySorted_length (l : List ℚ) : (pySorted l).length = l.length :=
  (pySorted_perm l).length_eq

/-- The `getD` of a valid sorted index is a member of the original list. -/
theorem pySorted_getD_mem (l : List ℚ) (i : ℕ) (hi : i < l.length) :
    (pySorted l).getD i 0 ∈ l := by
  have hlen : i < (pySorted l).length := by rw [pySorted_length]; exact hi
  rw [List.getD_eq_getElem _ _ hlen]
  exact (pySorted_perm l).subset (List.getElem_mem hlen)

/-- Sums are bounded above by length times an upper bound. -/
theorem list_sum_le (l : List ℚ) (M : ℚ) (h : ∀ x ∈ l, x ≤ M) :
    l.sum ≤ l.length * M := by
  induction l with
  | nil => simp
  | cons x xs ih =>
    have hx := h x (List.mem_cons_self x xs)
    have hxs := ih (fun y hy => h y (List.mem_cons_of_mem x hy))
    simp only [List.sum_cons, List.length_cons]
    push_cast
    nlinarith

/-- Sums are bounded below by length times a lower bound. -/
theorem le_list_sum (l : List ℚ) (m : ℚ) (h : ∀ x ∈ l, m ≤ x) :
    l.length * m ≤ l.sum := by
  induction l with
  | nil => simp
  | cons x xs ih =>
    have hx := h x (List.mem_cons_self x xs)
    have hxs := ih (fun y hy => h y (List.mem_cons_of_mem x hy))
    simp only [List.sum_cons, List.length_cons]
    push_cast
    nlinarith

/-- Looking a key up in a keyed `map` recovers the generating function. -/
theorem lookup_map_pair {β : Type} (f : String → β) (keys : List String)
    (col : String) (b : β)
    (h : List.lookup col (keys.map (fun c => (c, f c))) = some b) : b = f col := by
  induction keys with
  | nil => simp [List.lookup] at h
  | cons k ks ih =>
    by_cases hk : col = k
    · subst hk
      simp [List.lookup] at h
      exact h.symm
    · rw [List.map_cons] at h
      simp only [List.lookup_cons, beq_false_of_ne hk] at h
      exact ih h

/-- Every column entry of the profile is produced by `analyzeColumn`. -/
theorem columns_lookup (data : List Row) (col : String) (ca : ColAnalysis)
    (h : List.lookup col (analyze_data_structure data).columns = some ca) :
    ca = analyzeColumn data col := by
  cases hd : data.isEmpty with
  | true =>
    simp only [analyze_data_structure, hd, if_true] at h
    simp [emptyAnalysis] at h
  | false =>
    simp only [analyze_data_structure, hd, Bool.false_eq_true, if_false] at h
    exact lookup_map_pair _ _ _ _ h

/-- The stat fields set by the numeric branch when numbers are present. -/
theorem numericBranch_stats (values : List Value) (base : ColAnalysis)
    (h : numsOf values ≠ []) :
    (numericBranch values base).type = "numeric" ∧
    (numericBranch values base).min = some (pyMin (numsOf values)) ∧
    (numericBranch values base).max = some (pyMax (numsOf values)) ∧
    (numericBranch values base).mean =
      some (round2 ((numsOf values).sum / ((numsOf values).length : ℚ))) ∧
    (numericBranch values base).median = some (round2 (medianRawOf (numsOf values))) := by
  have hne : ¬ ((numsOf values).isEmpty = true) := by
    simp [List.isEmpty_iff, h]
  unfold numericBranch
  dsimp only
  rw [if_neg hne]
  split_ifs <;> exact ⟨rfl, rfl, rfl, rfl, rfl⟩

/-- The categorical branch never sets the numeric `min` field. -/
theorem categoricalBranch_min (values : List Value) (base : ColAnalysis)
    (hb : base.min = none) : (categoricalBranch values base).min = none := by
  unfold categoricalBranch
  dsimp only
  split_ifs <;> exact hb

/-- The datetime branch never sets the numeric `min` field. -/
theorem datetimeBranch_min (values : List Value) (base : ColAnalysis)
    (hb : base.min = none) : (datetimeBranch values base).min = none := by
  unfold datetimeBranch
  dsimp only
  rcases h2 : values.filterMap
      (fun v => match v with | .dt t => some t | _ => none) with _ | ⟨t, ts⟩ <;>
    rw [h2] <;> exact hb

/-- The mixed branch never sets the numeric `min` field. -/
theorem mixedBranch_min (base : ColAnalysis) (hb : base.min = none) :
    (mixedBranch base).min = none := by
  exact hb

/-- The finalization step keeps the consistency score inside `[0, 100]`
whenever the running score is at most `100`. -/
theorem finishScore_range (c : ColAnalysis) (s : ℚ) (hs : s ≤ 100) :
    0 ≤ (finishScore c s).consistency_score ∧
      (finishScore c s).consistency_score ≤ 100 := by
  constructor
  · exact le_max_left 0 _
  · exact max_le (by norm_num) (round1_le_100 s hs)

/-- Nonnegativity of the penalty ratios. -/
theorem ratio_nonneg (k n : ℕ) : (0 : ℚ) ≤ (k : ℚ) / (n : ℚ) * 100 := by
  positivity

/-- The numeric branch yields a consistency score in `[0, 100]`. -/
theorem numericBranch_score (values : List Value) (base : ColAnalysis) :
    0 ≤ (numericBranch values base).consistency_score ∧
      (numericBranch values base).consistency_score ≤ 100 := by
  unfold numericBranch
  dsimp only
  split_ifs
  · exact finishScore_range _ _ (by norm_num)
  · exact finishScore_range _ _ (by norm_num)
  · refine finishScore_range _ _ ?_
    have h0 : (0 : ℚ) ≤ Min.min 20
        (((outliersOf (numsOf values)).length : ℚ) / ((numsOf values).length : ℚ) * 100) :=
      le_min (by norm_num) (ratio_nonneg _ _)
    linarith

/-- A capped penalty and a flat penalty leave the score at most 100. -/
theorem sub_min_sub_le_100 (b x d : ℚ) (hb : 0 ≤ b) (hx : 0 ≤ x) (hd : 0 ≤ d) :
    (100 - Min.min b x) - d ≤ 100 := by
  have h0 : 0 ≤ Min.min b x := le_min hb hx
  linarith

/-- A capped penalty leaves the score at most 100. -/
theorem sub_min_le_100 (b x : ℚ) (hb : 0 ≤ b) (hx : 0 ≤ x) :
    100 - Min.min b x ≤ 100 := by
  have h0 : 0 ≤ Min.min b x := le_min hb hx
  linarith

/-- The categorical branch yields a consistency score in `[0, 100]`. -/
theorem categoricalBranch_score (values : List Value) (base : ColAnalysis) :
    0 ≤ (categoricalBranch values base).consistency_score ∧
      (categoricalBranch values base).consistency_score ≤ 100 := by
  have le15 : (0 : ℚ) ≤ 15 := by norm_num
  have le10 : (0 : ℚ) ≤ 10 := by norm_num
  have h90 : (100 : ℚ) - 10 ≤ 100 := by norm_num
  have h100 : (100 : ℚ) ≤ 100 := le_refl _
  unfold categoricalBranch
  dsimp only
  split_ifs
  · exact finishScore_range _ _ (sub_min_sub_le_100 _ _ _ le15 (ratio_nonneg _ _) le10)
  · exact finishScore_range _ _ h90
  · exact finishScore_range _ _ (sub_min_le_100 _ _ le15 (ratio_nonneg _ _))
  · exact finishScore_range _ _ h100

/-- The datetime branch yields a consistency score in `[0, 100]`. -/
theorem datetimeBranch_score (values : List Value) (base : ColAnalysis) :
    0 ≤ (datetimeBranch values base).consistency_score ∧
      (datetimeBranch values base).consistency_score ≤ 100 := by
  unfold datetimeBranch
  dsimp only
  rcases h2 : values.filterMap
      (fun v => match v with | .dt t => some t | _ => none) with _ | ⟨t, ts⟩ <;>
    rw [h2] <;> exact finishScore_range _ _ (by norm_num)

/-- The mixed branch yields a consistency score in `[0, 100]`. -/
theorem mixedBranch_score (base : ColAnalysis) :
    0 ≤ (mixedBranch base).consistency_score ∧
      (mixedBranch base).consistency_score ≤ 100 :=
  finishScore_range _ _ (by norm_num)

/-- Every column analysis has a consistency score in `[0, 100]`. -/
theorem analyzeColumn_score_range (data : List Row) (col : String) :
    0 ≤ (analyzeColumn data col).consistency_score ∧
      (analyzeColumn data col).consistency_score ≤ 100 := by
  unfold analyzeColumn
  dsimp only
  rcases colValues data col with _ | ⟨v, vs⟩
  · exact finishScore_range _ _ (by norm_num)
  · cases v with
    | num q => exact numericBranch_score _ _
    | str s => exact categoricalBranch_score _ _
    | dt t => exact datetimeBranch_score _ _
    | null => exact mixedBranch_score _
    | other => exact mixedBranch_score _

/-- C4: for every row list and every column present in the returned profile,
the consistency score lies in `[0, 100]`: it starts at 100, is reduced only
by nonnegative penalty deductions, and the final clamp `max(0, ·)` keeps it
from dropping below zero. -/
theorem c4_consistency_score_range (data : List Row) (col : String)
    (ca : ColAnalysis)
    (hlook : List.lookup col (analyze_data_structure data).columns = some ca) :
    0 ≤ ca.consistency_score ∧ ca.consistency_score ≤ 100 := by
  have hca := columns_lookup data col ca hlook
  subst hca
  exact analyzeColumn_score_range data col

/-- Concrete single-column data used by the C4 witness. -/
def c4WitnessData : List Row := [[("a", Value.num 1)]]

/-- Witness for C4 at a concrete profile entry. -/
theorem c4_consistency_score_range_witness :
    0 ≤ (analyzeColumn c4WitnessData "a").consistency_score ∧
      (analyzeColumn c4WitnessData "a").consistency_score ≤ 100 :=
  c4_consistency_score_range c4WitnessData "a" _ rfl

/-- C1: profiling the empty row list returns, without raising, the all-zero
result: `row_count = 0`, no columns, and a data-quality block with
completeness, consistency and overall score all `0`. -/
theorem c1_profile_empty_rows :
    (analyze_data_structure []).row_count = 0 ∧
    (analyze_data_structure []).columns = [] ∧
    (analyze_data_structure []).data_quality =
      { completeness := 0, consistency := 0, overall_score := 0 } :=
  ⟨rfl, rfl, rfl⟩

/-- C2 (amended): for every row list and every column profiled as numeric,
the reported `min` and `max` satisfy `min ≤ max`, and the reported `median`
and `mean` — which the code rounds to two decimals while leaving `min` and
`max` unrounded — lie within `[min - 1/200, max + 1/200]`. -/
theorem c2_numeric_stats_bounds (data : List Row) (col : String)
    (ca : ColAnalysis)
    (hlook : List.lookup col (analyze_data_structure data).columns = some ca)
    (htype : ca.type = "numeric") (mn mx me md : ℚ)
    (hmn : ca.min = some mn) (hmx : ca.max = some mx)
    (hme : ca.mean = some me) (hmd : ca.median = some md) :
    mn ≤ mx ∧ mn - 1/200 ≤ md ∧ md ≤ mx + 1/200 ∧
      mn - 1/200 ≤ me ∧ me ≤ mx + 1/200 := by
  have hca := columns_lookup data col ca hlook
  subst hca
  rcases hv : colValues data col with _ | ⟨v, vs⟩
  · exfalso
    have hnone : (analyzeColumn data col).min = none := by
      unfold analyzeColumn
      dsimp only
      rw [hv]
      rfl
    rw [hnone] at hmn
    exact Option.noConfusion hmn
  · cases v with
    | num q =>
      have hnv : numsOf (Value.num q :: vs) ≠ [] := by simp [numsOf]
      have hstats : (analyzeColumn data col).type = "numeric" ∧
          (analyzeColumn data col).min = some (pyMin (numsOf (Value.num q :: vs))) ∧
          (analyzeColumn data col).max = some (pyMax (numsOf (Value.num q :: vs))) ∧
          (analyzeColumn data col).mean =
            some (round2 ((numsOf (Value.num q :: vs)).sum /
              ((numsOf (Value.num q :: vs)).length : ℚ))) ∧
          (analyzeColumn data col).median =
            some (round2 (medianRawOf (numsOf (Value.num q :: vs)))) := by
        unfold analyzeColumn
        dsimp only
        rw [hv]
        exact numericBranch_stats _ _ hnv
      obtain rfl : mn = pyMin (numsOf (Value.num q :: vs)) := by
        rw [hstats.2.1] at hmn
        exact (Option.some.inj hmn).symm
      obtain rfl : mx = pyMax (numsOf (Value.num q :: vs)) := by
        rw [hstats.2.2.1] at hmx
        exact (Option.some.inj hmx).symm
      obtain rfl : me = round2 ((numsOf (Value.num q :: vs)).sum /
          ((numsOf (Value.num q :: vs)).length : ℚ)) := by
        rw [hstats.2.2.2.1] at hme
        exact (Option.some.inj hme).symm
      obtain rfl : md = round2 (medianRawOf (numsOf (Value.num q :: vs))) := by
        rw [hstats.2.2.2.2] at hmd
        exact (Option.some.inj hmd).symm
      have hqmem : q ∈ numsOf (Value.num q :: vs) := by simp [numsOf]
      have hlenpos : 0 < (numsOf (Value.num q :: vs)).length :=
        List.length_pos.mpr hnv
      have hlenQ : (0 : ℚ) < ((numsOf (Value.num q :: vs)).length : ℚ) := by
        exact_mod_cast hlenpos
      have hminmax : pyMin (numsOf (Value.num q :: vs)) ≤
          pyMax (numsOf (Value.num q :: vs)) :=
        le_trans (pyMin_le_of_mem hqmem) (le_pyMax_of_mem hqmem)
      have hmedmem : medianRawOf (numsOf (Value.num q :: vs)) ∈
          numsOf (Value.num q :: vs) :=
        pySorted_getD_mem _ _ (Nat.div_lt_self hlenpos (by norm_num))
      have hmedlo := pyMin_le_of_mem hmedmem
      have hmedhi := le_pyMax_of_mem hmedmem
      have hr2med := round2_bounds (medianRawOf (numsOf (Value.num q :: vs)))
      have hsumhi := list_sum_le (numsOf (Value.num q :: vs)) _
        (fun x hx => le_pyMax_of_mem hx)
      have hsumlo := le_list_sum (numsOf (Value.num q :: vs)) _
        (fun x hx => pyMin_le_of_mem hx)
      have hmeanhi : (numsOf (Value.num q :: vs)).sum /
          ((numsOf (Value.num q :: vs)).length : ℚ) ≤
            pyMax (numsOf (Value.num q :: vs)) := by
        rw [div_le_iff₀ hlenQ, mul_comm]
        exact hsumhi
      have hmeanlo : pyMin (numsOf (Value.num q :: vs)) ≤
          (numsOf (Value.num q :: vs)).sum /
            ((numsOf (Value.num q :: vs)).length : ℚ) := by
        rw [le_div_iff₀ hlenQ, mul_comm]
        exact hsumlo
      have hr2mean := round2_bounds ((numsOf (Value.num q :: vs)).sum /
        ((numsOf (Value.num q :: vs)).length : ℚ))
      exact ⟨hminmax, by linarith [hr2med.1], by linarith [hr2med.2],
        by linarith [hr2mean.1], by linarith [hr2mean.2]⟩
    | str s =>
      exfalso
      have hnone : (analyzeColumn data col).min = none := by
        unfold analyzeColumn
        dsimp only
        rw [hv]
        exact categoricalBranch_min _ _ rfl
      rw [hnone] at hmn
      exact Option.noConfusion hmn
    | dt t =>
      exfalso
      have hnone : (analyzeColumn data col).min = none := by
        unfold analyzeColumn
        dsimp only
        rw [hv]
        exact datetimeBranch_min _ _ rfl
      rw [hnone] at hmn
      exact Option.noConfusion hmn
    | null =>
      exfalso
      have hnone : (analyzeColumn data col).min = none := by
        unfold analyzeColumn
        dsimp only
        rw [hv]
        exact mixedBranch_min _ rfl
      rw [hnone] at hmn
      exact Option.noConfusion hmn
    | other =>
      exfalso
      have hnone : (analyzeColumn data col).min = none := by
        unfold analyzeColumn
        dsimp only
        rw [hv]
        exact mixedBranch_min _ rfl
      rw [hnone] at hmn
      exact Option.noConfusion hmn

/-- Single-column data whose sole numeric value is `0.004`. -/
def c2CexData : List Row := [[("a", Value.num (1/250))]]

/-- Rounding `0.004` to two decimals yields `0`. -/
theorem round2_one_over_250 : round2 ((1 : ℚ)/250) = 0 := by
  unfold round2
  rw [rhe_eq ((1 : ℚ)/250 * 100) 0 (by norm_num) (by norm_num)]
  norm_num

/-- C2 counterexample: on the single value `0.004` the profiler reports
`min = 0.004` but `median = mean = 0` (two-decimal rounding), so the
claimed `min ≤ median` and `mean ∈ [min, max]` are both false as stated. -/
theorem c2_counterexample :
    (List.lookup "a" (analyze_data_structure c2CexData).columns).map
        (fun c => (c.min, c.median, c.mean)) =
      some (some ((1 : ℚ)/250), some 0, some 0) ∧ ¬ ((1 : ℚ)/250 ≤ 0) := by
  have hl : List.lookup "a" (analyze_data_structure c2CexData).columns =
      some (analyzeColumn c2CexData "a") := rfl
  have hv : colValues c2CexData "a" = [Value.num ((1 : ℚ)/250)] := rfl
  have hnv : numsOf [Value.num ((1 : ℚ)/250)] ≠ [] := by simp [numsOf]
  have hstats : (analyzeColumn c2CexData "a").type = "numeric" ∧
      (analyzeColumn c2CexData "a").min =
        some (pyMin (numsOf [Value.num ((1 : ℚ)/250)])) ∧
      (analyzeColumn c2CexData "a").max =
        some (pyMax (numsOf [Value.num ((1 : ℚ)/250)])) ∧
      (analyzeColumn c2CexData "a").mean =
        some (round2 ((numsOf [Value.num ((1 : ℚ)/250)]).sum /
          ((numsOf [Value.num ((1 : ℚ)/250)]).length : ℚ))) ∧
      (analyzeColumn c2CexData "a").median =
        some (round2 (medianRawOf (numsOf [Value.num ((1 : ℚ)/250)]))) := by
    unfold analyzeColumn
    dsimp only
    rw [hv]
    exact numericBranch_stats _ _ hnv
  have hsum : (numsOf [Value.num ((1 : ℚ)/250)]).sum /
      ((numsOf [Value.num ((1 : ℚ)/250)]).length : ℚ) = (1 : ℚ)/250 := by
    norm_num [numsOf, List.filterMap_cons, List.filterMap_nil,
      List.sum_cons, List.sum_nil]
  have hmed : medianRawOf (numsOf [Value.num ((1 : ℚ)/250)]) = (1 : ℚ)/250 := rfl
  have h1 : (analyzeColumn c2CexData "a").min = some ((1 : ℚ)/250) := hstats.2.1
  have h2 : (analyzeColumn c2CexData "a").median = some 0 := by
    rw [hstats.2.2.2.2, hmed, round2_one_over_250]
  have h3 : (analyzeColumn c2CexData "a").mean = some 0 := by
    rw [hstats.2.2.2.1, hsum, round2_one_over_250]
  refine ⟨?_, by norm_num⟩
  rw [hl]
  simp only [Option.map_some']
  rw [h1, h2, h3]

/-- Two-row single-column data used by the C2 witness. -/
def c2WitnessData : List Row := [[("a", Value.num 3)], [("a", Value.num 5)]]

/-- Witness for the amended C2 at a concrete numeric column
(`min = 3`, `max = 5`, `mean = 4`, `median = 5`). -/
theorem c2_numeric_stats_bounds_witness :
    (3 : ℚ) ≤ 5 ∧ (3 : ℚ) - 1/200 ≤ 5 ∧ (5 : ℚ) ≤ 5 + 1/200 ∧
      (3 : ℚ) - 1/200 ≤ 4 ∧ (4 : ℚ) ≤ 5 + 1/200 := by
  have hv : colValues c2WitnessData "a" = [Value.num 3, Value.num 5] := rfl
  have hnv : numsOf [Value.num 3, Value.num 5] ≠ [] := by simp [numsOf]
  have hstats : (analyzeColumn c2WitnessData "a").type = "numeric" ∧
      (analyzeColumn c2WitnessData "a").min =
        some (pyMin (numsOf [Value.num 3, Value.num 5])) ∧
      (analyzeColumn c2WitnessData "a").max =
        some (pyMax (numsOf [Value.num 3, Value.num 5])) ∧
      (analyzeColumn c2WitnessData "a").mean =
        some (round2 ((numsOf [Value.num 3, Value.num 5]).sum /
          ((numsOf [Value.num 3, Value.num 5]).length : ℚ))) ∧
      (analyzeColumn c2WitnessData "a").median =
        some (round2 (medianRawOf (numsOf [Value.num 3, Value.num 5]))) := by
    unfold analyzeColumn
    dsimp only
    rw [hv]
    exact numericBranch_stats _ _ hnv
  have hnums : numsOf [Value.num 3, Value.num 5] = [3, 5] := rfl
  have hminv : pyMin (numsOf [Value.num 3, Value.num 5]) = 3 := by
    rw [hnums]
    norm_num [pyMin, List.foldl_cons, List.foldl_nil, min_def]
  have hmaxv : pyMax (numsOf [Value.num 3, Value.num 5]) = 5 := by
    rw [hnums]
    norm_num [pyMax, List.foldl_cons, List.foldl_nil, max_def]
  have hsum : (numsOf [Value.num 3, Value.num 5]).sum /
      ((numsOf [Value.num 3, Value.num 5]).length : ℚ) = 4 := by
    rw [hnums]
    norm_num [List.sum_cons, List.sum_nil]
  have hmedv : medianRawOf (numsOf [Value.num 3, Value.num 5]) = 5 := by
    rw [hnums]
    have hsorted : pySorted [(3 : ℚ), 5] = [3, 5] := by
      norm_num [pySorted, insertSorted]
    norm_num [medianRawOf, hsorted, List.getD_cons_zero, List.getD_cons_succ]
  have hr4 : round2 (4 : ℚ) = 4 := by
    unfold round2
    rw [rhe_eq ((4 : ℚ) * 100) 400 (by norm_num) (by norm_num)]
    norm_num
  have hr5 : round2 (5 : ℚ) = 5 := by
    unfold round2
    rw [rhe_eq ((5 : ℚ) * 100) 500 (by norm_num) (by norm_num)]
    norm_num
  exact c2_numeric_stats_bounds c2WitnessData "a" _ rfl hstats.1 3 5 4 5
    (by rw [hstats.2.1, hminv]) (by rw [hstats.2.2.1, hmaxv])
    (by rw [hstats.2.2.2.1, hsum, hr4]) (by rw [hstats.2.2.2.2, hmedv, hr5])

/-- Five-row single-column data with values `[1, 2, 3, 4, 100]`. -/
def c3Data : List Row :=
  [[("x", Value.num 1)], [("x", Value.num 2)], [("x", Value.num 3)],
   [("x", Value.num 4)], [("x", Value.num 100)]]

/-- Sorting the C3 values. -/
theorem c3_sorted : pySorted [(1 : ℚ), 2, 3, 4, 100] = [1, 2, 3, 4, 100] := by
  norm_num [pySorted, insertSorted]

/-- Q1 of the C3 values sits at sorted index `5 // 4 = 1`. -/
theorem c3_q1 : q1Of [(1 : ℚ), 2, 3, 4, 100] = 2 := by
  norm_num [q1Of, c3_sorted, List.getD_cons_zero, List.getD_cons_succ]

/-- Q3 of the C3 values sits at sorted index `3 * 5 // 4 = 3`. -/
theorem c3_q3 : q3Of [(1 : ℚ), 2, 3, 4, 100] = 4 := by
  norm_num [q3Of, c3_sorted, List.getD_cons_zero, List.getD_cons_succ]

/-- The IQR filter keeps exactly the value 100. -/
theorem c3_outliers : outliersOf [(1 : ℚ), 2, 3, 4, 100] = [100] := by
  unfold outliersOf
  rw [c3_q1, c3_q3]
  norm_num [List.filter_cons, List.filter_nil, decide_eq_true_eq]

/-- C3: for the numeric column `[1, 2, 3, 4, 100]`, Q1 is taken at sorted
index `len // 4 = 1` (value 2), Q3 at `3 * len // 4 = 3` (value 4), the IQR
is 2, the upper fence is `4 + 1.5 × 2 = 7`, and 100 is flagged as the sole
outlier (the profile reports `outliers = 1`). -/
theorem c3_outlier_rule :
    q1Of [(1 : ℚ), 2, 3, 4, 100] = 2 ∧
    q3Of [(1 : ℚ), 2, 3, 4, 100] = 4 ∧
    q3Of [(1 : ℚ), 2, 3, 4, 100] - q1Of [(1 : ℚ), 2, 3, 4, 100] = 2 ∧
    q3Of [(1 : ℚ), 2, 3, 4, 100] +
      3/2 * (q3Of [(1 : ℚ), 2, 3, 4, 100] - q1Of [(1 : ℚ), 2, 3, 4, 100]) = 7 ∧
    outliersOf [(1 : ℚ), 2, 3, 4, 100] = [100] ∧
    (List.lookup "x" (analyze_data_structure c3Data).columns).map
      ColAnalysis.outliers = some (some 1) := by
  have hv : colValues c3Data "x" =
      [Value.num 1, Value.num 2, Value.num 3, Value.num 4, Value.num 100] := rfl
  have hnums : numsOf
      [Value.num 1, Value.num 2, Value.num 3, Value.num 4, Value.num 100] =
      [(1 : ℚ), 2, 3, 4, 100] := rfl
  have houtfield : (analyzeColumn c3Data "x").outliers = some 1 := by
    unfold analyzeColumn
    dsimp only
    rw [hv]
    show (numericBranch
      [Value.num 1, Value.num 2, Value.num 3, Value.num 4, Value.num 100]
      _).outliers = some 1
    unfold numericBranch
    dsimp only
    rw [hnums, if_neg (by decide), c3_outliers, if_neg (by decide)]
    rfl
  have hl : List.lookup "x" (analyze_data_structure c3Data).columns =
      some (analyzeColumn c3Data "x") := rfl
  refine ⟨c3_q1, c3_q3, by rw [c3_q1, c3_q3]; norm_num,
    by rw [c3_q1, c3_q3]; norm_num, c3_outliers, ?_⟩
  rw [hl]
  simp only [Option.map_some']
  rw [houtfield]

/-- C10: in a non-empty two-column data set whose first row holds null in
the second column, the null is coerced to the number `0` (and a null first
column to the empty string), so a bar-chart configuration is returned
whenever the first value of the first column is a string or null. -/
theorem c10_null_coercion_bar_chart (data : List Row) (col1 col2 : String)
    (v1 : Value) (hne : data ≠ [])
    (h1 : List.lookup col1 (data.headD []) = some v1)
    (h2 : List.lookup col2 (data.headD []) = some Value.null)
    (hv1 : v1 = Value.null ∨ ∃ s, v1 = Value.str s) :
    suggest_chart_config data [col1, col2] =
      .ok (some { type := "bar", label_column := col1, value_column := some col2
                  title := col1 ++ "별 " ++ col2
                  chart_library := "Chart.js" }) := by
  have hie : data.isEmpty = false := by
    simpa [List.isEmpty_iff] using hne
  unfold suggest_chart_config
  rw [hie]
  simp only [Bool.false_eq_true, if_false, List.length_cons, List.length_nil,
    List.length_singleton]
  norm_num
  simp only [List.headD_eq_head?_getD] at h1 h2
  rw [h1, h2]
  rcases hv1 with rfl | ⟨s, rfl⟩ <;> simp

/-- Two-column data whose first row holds a string and a null. -/
def c10WitnessData : List Row := [[("a", Value.str "x"), ("b", Value.null)]]

/-- Witness for C10: the null in the second column of row one still yields a
bar-chart configuration. -/
theorem c10_null_coercion_bar_chart_witness :
    suggest_chart_config c10WitnessData ["a", "b"] =
      .ok (some { type := "bar", label_column := "a", value_column := some "b"
                  title := "a" ++ "별 " ++ "b"
                  chart_library := "Chart.js" }) :=
  c10_null_coercion_bar_chart c10WitnessData "a" "b" (Value.str "x")
    (List.cons_ne_nil _ _) rfl rfl (Or.inr ⟨"x", rfl⟩)

/-- C8: the SQL sanitizer maps the fenced input to `"SELECT 1;"` and adds
the missing trailing semicolon to the bare input `"SELECT 1"`. -/
theorem c8_sql_sanitizer :
    clean_sql_query "```sql\nSELECT 1\n```" = "SELECT 1;" ∧
    clean_sql_query "SELECT 1" = "SELECT 1;" := by
  constructor <;> decide

/-- C9: a generated document that passes the doctype and `new Chart(`
checks but mentions `Chart.js` without the CDN marker and lacks `<style>`
scores `100 - 20 - 15 = 65`, which is below the 70 threshold, so the
generation call is made exactly twice (one retry). -/
theorem c9_html_score_triggers_retry (question : String) (results : List Row)
    (r0 r1 : String) (hres : results ≠ [])
    (hdoc : pyStartsWith (clean_html_response r0) "<!DOCTYPE" = true)
    (hcj : pyContains (clean_html_response r0) "Chart.js" = true)
    (hcdn : pyContains (clean_html_response r0) "cdnjs.cloudflare.com" = false)
    (hnc : pyContains (clean_html_response r0) "new Chart(" = true)
    (hst : pyContains (clean_html_response r0) "<style>" = false) :
    validate_html_quality (clean_html_response r0) = 65 ∧ (65 : ℤ) < 70 ∧
    (generate_html_report question results [r0, r1]).attempts = 2 := by
  have hv : validate_html_quality (clean_html_response r0) = 65 := by
    unfold validate_html_quality
    rw [hdoc, hcj, hcdn, hnc, hst]
    norm_num
  refine ⟨hv, by norm_num, ?_⟩
  have hie : results.isEmpty = false := by
    simpa [List.isEmpty_iff] using hres
  unfold generate_html_report
  rw [hie]
  simp only [Bool.false_eq_true, if_false, List.getD_cons_zero,
    List.getD_cons_succ]
  rw [hv]
  norm_num
  split_ifs <;> rfl

/-- Concrete raw LLM response used by the C9 witness: a document starting
with the doctype, calling `new Chart(` and naming `Chart.js`, but with no
CDN marker and no `<style>` block. -/
def c9Response : String :=
  "<!DOCTYPE html><html><head><script src=\"vendor/Chart.js\"></script></head><body><canvas></canvas><script>new Chart();</script></body></html>"

/-- Non-empty query results used by the C9 witness. -/
def c9Results : List Row := [[("a", Value.num 1)]]

/-- Witness for C9 at a concrete document: score 65, one retry. -/
theorem c9_html_score_triggers_retry_witness :
    validate_html_quality (clean_html_response c9Response) = 65 ∧ (65 : ℤ) < 70 ∧
    (generate_html_report "q" c9Results [c9Response, ""]).attempts = 2 :=
  c9_html_score_triggers_retry "q" c9Results c9Response ""
    (List.cons_ne_nil _ _) (by decide) (by decide) (by decide) (by decide)
    (by decide)

/-- Dict assignment followed by lookup of the same key hits the entry. -/
theorem lookup_dictSet {α : Type} (l : List (String × α)) (k : String) (v : α) :
    List.lookup k (dictSet l k v) = some v := by
  induction l with
  | nil => simp [dictSet, List.lookup]
  | cons p rest ih =>
    obtain ⟨k', v'⟩ := p
    by_cases h : k' = k
    · subst h
      simp [dictSet, List.lookup]
    · simp only [dictSet, if_neg h]
      simp only [List.lookup_cons, beq_false_of_ne (Ne.symm h)]
      exact ih

/-- The detailed schema prompt always starts with the `#` heading marker. -/
theorem build_detailed_head (sd : SchemaData) (tids : Option (List String)) :
    (build_detailed_schema_prompt sd tids).data.head? = some '#' := rfl

/-- The fallback prompt always starts with the character `다`. -/
theorem fallback_head (pid : String) (tids : Option (List String)) :
    (generate_fallback_prompt pid tids).data.head? = some '다' := rfl

/-- C5: registering a schema and immediately asking for the prompt of the
same key returns the detailed prompt built from the cached entry and never
any fallback prompt. -/
theorem c5_register_then_detailed_prompt (st : SchemaState) (pid : String)
    (meta : SchemaMetadata) (tids : Option (List String)) :
    get_schema_prompt (register_schema st pid meta) pid tids =
      build_detailed_schema_prompt (registeredEntry pid meta) tids ∧
    ∀ p t, get_schema_prompt (register_schema st pid meta) pid tids ≠
      generate_fallback_prompt p t := by
  have hl : List.lookup pid (register_schema st pid meta) =
      some (registeredEntry pid meta) := lookup_dictSet st pid _
  have heq : get_schema_prompt (register_schema st pid meta) pid tids =
      build_detailed_schema_prompt (registeredEntry pid meta) tids := by
    unfold get_schema_prompt
    rw [hl]
  refine ⟨heq, fun p t hcontra => ?_⟩
  have h1 := build_detailed_head (registeredEntry pid meta) tids
  rw [← heq, hcontra, fallback_head] at h1
  exact absurd (Option.some.inj h1) (by decide)

/-- The size-reduction loop never pushes the unit index past the bound. -/
theorem sizeLoop_idx_le (bound : Nat) :
    ∀ (fuel : Nat) (s : ℚ) (idx : Nat), idx ≤ bound →
      (sizeLoop bound fuel s idx).2 ≤ bound := by
  intro fuel
  induction fuel with
  | zero => intro s idx h; simpa [sizeLoop] using h
  | succ f ih =>
    intro s idx h
    rw [sizeLoop]
    split_ifs with hc
    · exact ih _ _ (by omega)
    · simpa using h

/-- The schema size formatter index stays at most 4. -/
theorem schemaSizeIndex_le (b : ℕ) : schemaSizeIndex b ≤ 4 :=
  sizeLoop_idx_le 4 4 _ 0 (by norm_num)

/-- Valid indices of the schema unit list select one of its members. -/
theorem format_size_units_getD_mem (i : ℕ) (hi : i ≤ 4) :
    format_size_units.getD i "" ∈ format_size_units := by
  interval_cases i <;> decide

/-- Loop evaluation at `1024^5` for the schema formatter (bound 4). -/
theorem sizeLoop_peta_schema :
    sizeLoop 4 4 ((1024 ^ 5 : ℕ) : ℚ) 0 = (1024, 4) := by
  have hc : ((1024 ^ 5 : ℕ) : ℚ) = 1024 ^ 5 := by push_cast; ring
  rw [hc]
  norm_num [sizeLoop]

/-- Loop evaluation at `1024^5` for `format_table_size` (bound 5). -/
theorem sizeLoop_peta_table :
    sizeLoop 5 5 ((1024 ^ 5 : ℕ) : ℚ) 0 = (1, 5) := by
  have hc : ((1024 ^ 5 : ℕ) : ℚ) = 1024 ^ 5 := by push_cast; ring
  rw [hc]
  norm_num [sizeLoop]

/-- Fixed-point rendering of the scaled value 1024. -/
theorem format2f_1024 : format2f (1024 : ℚ) = "1024.00" := by
  unfold format2f
  rw [rhe_eq ((1024 : ℚ) * 100) 102400 (by norm_num) (by norm_num)]
  norm_num
  decide

/-- Fixed-point rendering of the scaled value 1. -/
theorem format2f_one : format2f (1 : ℚ) = "1.00" := by
  unfold format2f
  rw [rhe_eq ((1 : ℚ) * 100) 100 (by norm_num) (by norm_num)]
  norm_num
  decide

/-- The schema formatter renders `1024^5` bytes as `1024.00 TB`. -/
theorem format_size_peta : format_size (1024 ^ 5) = "1024.00 TB" := by
  unfold format_size schemaSizeMantissa schemaSizeUnit schemaSizeIndex
  rw [if_neg (by norm_num), if_neg (by norm_num), sizeLoop_peta_schema,
    format2f_1024]
  rfl

/-- C6 counterexample: at `1024^5` bytes — where the claim expects the PB
unit — `get_schema_prompt`'s size formatter renders `1024.00 TB`; its unit
list does not even contain PB. -/
theorem c6_counterexample :
    format_size (1024 ^ 5) = "1024.00 TB" ∧
    schemaSizeUnit (1024 ^ 5) = "TB" ∧ "PB" ∉ format_size_units := by
  refine ⟨format_size_peta, ?_, by decide⟩
  unfold schemaSizeUnit schemaSizeIndex
  rw [if_neg (by norm_num), sizeLoop_peta_schema]
  rfl

/-- C6 (amended): the size rendering used by `get_schema_prompt` draws its
1024-base units from B/KB/MB/GB/TB only, capping at TB — `1024^5` bytes
render as `1024.00 TB`, never PB; the PB unit exists only in the separate
utility `format_table_size`, which renders `1024^5` bytes as `1.00 PB` but
is not called by the prompt builder. -/
theorem c6_size_units_cap_at_tb :
    (∀ n : ℕ, schemaSizeUnit n ∈ format_size_units) ∧
    format_size (1024 ^ 5) = "1024.00 TB" ∧
    format_table_size (1024 ^ 5) = "1.00 PB" := by
  refine ⟨fun n => ?_, format_size_peta, ?_⟩
  · unfold schemaSizeUnit
    split_ifs
    · decide
    · exact format_size_units_getD_mem _ (schemaSizeIndex_le n)
  · unfold format_table_size
    rw [if_neg (by norm_num), sizeLoop_peta_table]
    norm_num
    rw [format2f_one]
    rfl

/-- Table `t1` with a STRING `user_id` column. -/
def c7TableA : BQTable :=
  { table_id := "t1", schema := [{ name := "user_id", ftype := "STRING" }] }

/-- Table `t2` with an INTEGER `user_id` column. -/
def c7TableB : BQTable :=
  { table_id := "t2", schema := [{ name := "user_id", ftype := "INTEGER" }] }

/-- C7 counterexample: `user_id` is a shared field of the two tables, yet —
because its declared types differ — it receives no join-key confidence at
all (the emitted relationship has an empty `potential_join_keys`),
contradicting the claim that a name ending in `_id` receives "high". -/
theorem c7_counterexample :
    "user_id" ∈ commonFieldNames c7TableA c7TableB ∧
    (analyze_table_relationship c7TableA c7TableB).map
      TableRelationship.potential_join_keys = some [] := by
  refine ⟨by decide, ?_⟩
  have hc : commonFieldNames c7TableA c7TableB = ["user_id"] := by decide
  have ht : totalFieldsCount c7TableA c7TableB = 1 := by decide
  have hjk : potentialJoinKeys c7TableA c7TableB = [] := by decide
  unfold analyze_table_relationship
  dsimp only
  rw [hc, ht, hjk, if_neg (by decide), if_pos (Or.inl (by norm_num))]
  rfl

/-- C7 (amended): every shared field whose declared type matches across the
two tables receives join-key confidence "high" when its name ends in `_id`
or `_key` or equals `id`, and "medium" otherwise; a shared field whose
declared types differ receives no join-key entry at all.  In particular two
tables sharing `user_id` with the same type emit a relationship candidate
in which `user_id` is a high-confidence join key. -/
theorem c7_join_key_confidence (t1 t2 : BQTable) (nm : String) (f1 f2 : BQField)
    (hmem : nm ∈ commonFieldNames t1 t2)
    (h1 : lookupLastBQ t1.schema nm = some f1)
    (h2 : lookupLastBQ t2.schema nm = some f2) :
    (f1.ftype = f2.ftype →
      ∃ r, analyze_table_relationship t1 t2 = some r ∧
        ({ field := nm, ftype := f1.ftype
           confidence := if isJoinKeyName nm then "high" else "medium" } : JoinKey)
          ∈ r.potential_join_keys) ∧
    (f1.ftype ≠ f2.ftype →
      ∀ jk ∈ potentialJoinKeys t1 t2, jk.field ≠ nm) := by
  constructor
  · intro hty
    have hmemjk : JoinKey.mk nm f1.ftype
        (if isJoinKeyName nm then "high" else "medium")
        ∈ potentialJoinKeys t1 t2 := by
      unfold potentialJoinKeys
      rw [List.mem_filterMap]
      refine ⟨nm, hmem, ?_⟩
      rw [h1, h2]
      by_cases hk : isJoinKeyName nm = true
      · simp [hty, hk]
      · simp only [Bool.not_eq_true] at hk
        simp [hty, hk]
    have hne : potentialJoinKeys t1 t2 ≠ [] := List.ne_nil_of_mem hmemjk
    have hcommon : commonFieldNames t1 t2 ≠ [] := List.ne_nil_of_mem hmem
    have hrel : analyze_table_relationship t1 t2 =
        some { table1 := t1.table_id, table2 := t2.table_id
               relationship_strength := round1
                 (((commonFieldNames t1 t2).length : ℚ) /
                   (totalFieldsCount t1 t2) * 100)
               common_fields := commonFieldNames t1 t2
               potential_join_keys := potentialJoinKeys t1 t2
               suggested_join :=
                 suggest_join_query t1 t2 (potentialJoinKeys t1 t2) } := by
      unfold analyze_table_relationship
      dsimp only
      rw [if_neg (by simpa [List.isEmpty_iff] using hcommon),
        if_pos (Or.inr hne)]
    exact ⟨_, hrel, hmemjk⟩
  · intro hty jk hjk heq
    unfold potentialJoinKeys at hjk
    rw [List.mem_filterMap] at hjk
    obtain ⟨a, ha, hfa⟩ := hjk
    have hfld : jk.field = a := by
      rcases hla : lookupLastBQ t1.schema a with _ | f1'
      · rw [hla] at hfa
        exact Option.noConfusion hfa
      · rcases hlb : lookupLastBQ t2.schema a with _ | f2'
        · rw [hla, hlb] at hfa
          exact Option.noConfusion hfa
        · rw [hla, hlb] at hfa
          dsimp only at hfa
          split_ifs at hfa <;> rw [← Option.some.inj hfa]
    have hanm : a = nm := by rw [← hfld, heq]
    subst hanm
    rw [h1, h2] at hfa
    simp [hty] at hfa

/-- Table `t2` with a STRING `user_id` column (same type as `c7TableA`). -/
def c7TableC : BQTable :=
  { table_id := "t2", schema := [{ name := "user_id", ftype := "STRING" }] }

/-- Witness for the amended C7: two tables sharing `user_id` with the same
type emit a relationship candidate carrying `user_id` as a high-confidence
join key. -/
theorem c7_join_key_confidence_witness :
    ∃ r, analyze_table_relationship c7TableA c7TableC = some r ∧
      ({ field := "user_id", ftype := "STRING", confidence := "high" } : JoinKey)
        ∈ r.potential_join_keys := by
  have h := (c7_join_key_confidence c7TableA c7TableC "user_id"
    { name := "user_id", ftype := "STRING" }
    { name := "user_id", ftype := "STRING" }
    (by decide) (by decide) (by decide)).1 rfl
  have hconf : (if isJoinKeyName "user_id" then "high" else "medium") = "high" := by
    decide
  rw [hconf] at h
  exact h
